import Mathlib

/-!
Verification of `src/example/python/producer.py`, a periodic sample
publisher.  The script draws two fresh values of `random()` each
iteration, builds the dict `{"value1": random(), "value2": 1 + random()}`,
serializes it with `json.dumps`, publishes it to the Kafka topic
`"test"`, prints a progress line, increments a local counter,
calls `producer.flush(1)` and sleeps 0.5 seconds, forever.

Modelling choices: Python floats are modelled as exact rationals
(the contract of `random()` becomes the hypothesis `0 ≤ r < 1`);
the infinite stream of `random()` draws is a function `Nat → ℚ × ℚ`
giving the two draws of each iteration; the observable side effects of
one iteration are collected into a list of events.
-/

/-- A JSON value as produced by `json.dumps` on the script's dict.
Numbers are modelled as exact rationals. -/
inductive Json where
  | num (q : ℚ)
  | str (s : String)
  | obj (fields : List (String × Json))

/-- The record built on lines 17-18 of the script: the `data` dict with
fields `value1` and `value2`. -/
structure Sample where
  value1 : ℚ
  value2 : ℚ
deriving DecidableEq

/-- Lines 17-18: `data = {"value1": random(), "value2": 1 + random()}`,
where `r1` and `r2` are the two fresh draws of `random()`. -/
def mkSample (r1 r2 : ℚ) : Sample :=
  { value1 := r1, value2 := 1 + r2 }

/-- `json.dumps(data)`: the dict becomes a JSON object whose fields keep
their names and insertion order. -/
def encodeSample (s : Sample) : Json :=
  Json.obj [("value1", Json.num s.value1), ("value2", Json.num s.value2)]

/-- The inverse direction of the wire format: read a `Sample` back from a
JSON object with exactly the two numeric fields `value1` and `value2`. -/
def decodeSample : Json → Option Sample
  | Json.obj [("value1", Json.num a), ("value2", Json.num b)] =>
      some { value1 := a, value2 := b }
  | _ => none

/-- The key list of a JSON object (empty for non-objects). -/
def jsonKeys : Json → List String
  | Json.obj fs => fs.map Prod.fst
  | _ => []

/-- The value list of a JSON object (empty for non-objects). -/
def objValues : Json → List Json
  | Json.obj fs => fs.map Prod.snd
  | _ => []

/-- Whether a JSON value is a number. -/
def isNum : Json → Bool
  | Json.num _ => true
  | _ => false

/-- The UTF-8 text `json.dumps` emits for the script's two-field dict. -/
def renderPayload (s : Sample) : String :=
  "\x7b\"value1\": " ++ toString s.value1 ++ ", \"value2\": " ++
    toString s.value2 ++ "\x7d"

/-- One observable side effect of the loop body. -/
inductive Event where
  | produce (topic : String) (value : Json)
  | printLine (line : String)
  | flush (timeout : ℚ)
  | sleep (duration : ℚ)

/-- Whether an event is a `producer.produce` call. -/
def isProduceEv : Event → Bool
  | Event.produce _ _ => true
  | _ => false

/-- Whether an event is a console `print`. -/
def isPrintEv : Event → Bool
  | Event.printLine _ => true
  | _ => false

/-- Line 20: `"Sample #{} produced!".format(counter)`. -/
def progressLine (counter : Nat) : String :=
  "Sample #" ++ toString counter ++ " produced!"

/-- Lines 17-23, one pass through the loop body: build `data` from the two
fresh draws, `produce` it to topic `"test"`, print the progress line,
increment the counter, `flush(1)`, `sleep(0.5)`.  Returns the emitted
events and the updated counter. -/
def loopBody (counter : Nat) (r1 r2 : ℚ) : List Event × Nat :=
  let data := mkSample r1 r2
  ([Event.produce "test" (encodeSample data),
    Event.printLine (progressLine counter),
    Event.flush 1,
    Event.sleep (1/2)],
   counter + 1)

/-- Line 16: the guard of `while True`. -/
def loopGuard : Bool := true

/-- The counter (line 14: `counter = 1`) as the loop's only piece of state:
its value at the start of iteration `i` (0-based), threading the update of
`loopBody` through the iterations. -/
def counterState (draws : Nat → ℚ × ℚ) : Nat → Nat
  | 0 => 1
  | i + 1 => (loopBody (counterState draws i) (draws i).1 (draws i).2).2

/-- The events emitted during iteration `i` (0-based). -/
def iterTrace (draws : Nat → ℚ × ℚ) (i : Nat) : List Event :=
  (loopBody (counterState draws i) (draws i).1 (draws i).2).1

/-- The JSON payload published during iteration `i`: a function of the two
draws of iteration `i` only. -/
def payloadAt (draws : Nat → ℚ × ℚ) (i : Nat) : Json :=
  encodeSample (mkSample (draws i).1 (draws i).2)

/-- The counter equals the 1-based iteration number. -/
theorem counterState_eq (draws : Nat → ℚ × ℚ) (i : Nat) :
    counterState draws i = i + 1 := by
  induction i with
  | zero => rfl
  | succ k ih => simp [counterState, loopBody, ih]

/-- The trace of iteration `i`, with the counter evaluated. -/
theorem iterTrace_eq (draws : Nat → ℚ × ℚ) (i : Nat) :
    iterTrace draws i = (loopBody (i + 1) (draws i).1 (draws i).2).1 := by
  simp [iterTrace, counterState_eq]

/-- The loop body when `producer.produce` or `producer.flush` may raise.
If `produce` raises, nothing of the body's output is observed; if `flush`
raises, the `produce` call and the progress line have already happened.
Returns the emitted events and `some` updated counter, or `none` when an
exception escapes the body (there is no handler in the script). -/
def loopBodyExc (counter : Nat) (r1 r2 : ℚ)
    (produceRaises flushRaises : Bool) : List Event × Option Nat :=
  if produceRaises then ([], none)
  else if flushRaises then
    ([Event.produce "test" (encodeSample (mkSample r1 r2)),
      Event.printLine (progressLine counter)], none)
  else ((loopBody counter r1 r2).1, some (counter + 1))

/-- Run the loop with fallible `produce`/`flush` for at most `fuel`
iterations, starting with counter `c` at iteration index `i`: once an
exception escapes a body, no further iteration runs. -/
def runExc (draws : Nat → ℚ × ℚ) (produceFail flushFail : Nat → Bool) :
    Nat → Nat → Nat → List Event
  | _, _, 0 => []
  | c, i, fuel + 1 =>
    let step := loopBodyExc c (draws i).1 (draws i).2
      (produceFail i) (flushFail i)
    match step.2 with
    | none => step.1
    | some c2 => step.1 ++ runExc draws produceFail flushFail c2 (i + 1) fuel

/-- The concatenated traces of `k` fault-free iterations starting at
iteration index `i`. -/
def cleanTraceFrom (draws : Nat → ℚ × ℚ) : Nat → Nat → List Event
  | _, 0 => []
  | i, k + 1 => iterTrace draws i ++ cleanTraceFrom draws (i + 1) k

/-- The concatenated fault-free bodies with explicit counter `c` at
iteration index `i`, as the fallible run produces them. -/
def segTrace (draws : Nat → ℚ × ℚ) : Nat → Nat → Nat → List Event
  | _, _, 0 => []
  | c, i, k + 1 =>
    (loopBody c (draws i).1 (draws i).2).1 ++ segTrace draws (c + 1) (i + 1) k

/-- Claim C1: every Sample generated by the loop satisfies
`0 ≤ value1 < 1` and `1 ≤ value2 < 2`, given that each draw of
`random()` lies in `[0, 1)`. -/
theorem sample_field_ranges (r1 r2 : ℚ)
    (h1 : 0 ≤ r1) (h2 : r1 < 1) (h3 : 0 ≤ r2) (h4 : r2 < 1) :
    0 ≤ (mkSample r1 r2).value1 ∧ (mkSample r1 r2).value1 < 1 ∧
      1 ≤ (mkSample r1 r2).value2 ∧ (mkSample r1 r2).value2 < 2 := by
  refine ⟨h1, h2, ?_, ?_⟩ <;> simp [mkSample] <;> linarith

/-- Concrete instance of `sample_field_ranges` at draws 1/2 and 1/3. -/
theorem sample_field_ranges_witness :
    0 ≤ (mkSample (1/2) (1/3)).value1 ∧ (mkSample (1/2) (1/3)).value1 < 1 ∧
      1 ≤ (mkSample (1/2) (1/3)).value2 ∧ (mkSample (1/2) (1/3)).value2 < 2 :=
  sample_field_ranges (1/2) (1/3) (by norm_num) (by norm_num)
    (by norm_num) (by norm_num)

/-- Claim C2: the counter starts at 1, increases by exactly 1 on every
iteration, and at the start of the `n`-th iteration (1-based) holds `n`. -/
theorem counter_starts_one_increments (draws : Nat → ℚ × ℚ) (n : Nat)
    (h : 1 ≤ n) :
    counterState draws 0 = 1 ∧
      (∀ i, counterState draws (i + 1) = counterState draws i + 1) ∧
      counterState draws (n - 1) = n := by
  refine ⟨rfl, fun i => by simp [counterState, loopBody], ?_⟩
  rw [counterState_eq]
  omega

/-- Concrete instance of `counter_starts_one_increments` at `n = 3`. -/
theorem counter_starts_one_increments_witness :
    1 ≤ 3 ∧ counterState (fun _ => ((0 : ℚ), (0 : ℚ))) (3 - 1) = 3 :=
  ⟨by norm_num,
   (counter_starts_one_increments (fun _ => ((0 : ℚ), (0 : ℚ))) 3
      (by norm_num)).2.2⟩

/-- Claim C3: every iteration issues exactly one `produce` call and its
destination argument is the literal string `"test"`. -/
theorem one_produce_to_test (draws : Nat → ℚ × ℚ) (i : Nat) :
    (iterTrace draws i).filter isProduceEv =
      [Event.produce "test" (payloadAt draws i)] := by
  rw [iterTrace_eq]
  rfl

/-- Claim C4: the published payload of every iteration is a JSON object
with exactly the keys `value1` and `value2`, both numeric; the payload
equals `payloadAt`, which does not involve the counter. -/
theorem payload_two_numeric_keys (draws : Nat → ℚ × ℚ) (i : Nat) :
    (iterTrace draws i).filter isProduceEv =
        [Event.produce "test" (payloadAt draws i)] ∧
      jsonKeys (payloadAt draws i) = ["value1", "value2"] ∧
      (objValues (payloadAt draws i)).all isNum = true :=
  ⟨by rw [iterTrace_eq]; rfl, rfl, rfl⟩

/-- Claim C5: serialization round-trips — encoding a Sample and decoding
the result recovers both fields exactly (hence within any floating-point
tolerance); `encodeSample` is a pure Lean function of the Sample. -/
theorem encode_decode_roundtrip (s : Sample) :
    decodeSample (encodeSample s) = some s := by
  cases s
  rfl

/-- Claim C6: each iteration emits, in this order, the `produce` of the
freshly generated and serialized Sample to `"test"`, the progress line,
a `flush` with ceiling exactly 1, and a `sleep` of exactly 0.5. -/
theorem iteration_order (draws : Nat → ℚ × ℚ) (i : Nat) :
    iterTrace draws i =
      [Event.produce "test" (encodeSample (mkSample (draws i).1 (draws i).2)),
       Event.printLine (progressLine (counterState draws i)),
       Event.flush 1,
       Event.sleep (1/2)] := rfl

/-- Claim C7: every iteration emits exactly one console line, namely
`Sample #<n> produced!` with `n` the 1-based iteration number; the first
line reads `Sample #1 produced!`. -/
theorem one_progress_line (draws : Nat → ℚ × ℚ) (i : Nat) :
    (iterTrace draws i).filter isPrintEv =
        [Event.printLine (progressLine (i + 1))] ∧
      (iterTrace draws 0).filter isPrintEv =
        [Event.printLine "Sample #1 produced!"] := by
  have hline : progressLine 1 = "Sample #1 produced!" := by decide
  constructor
  · rw [iterTrace_eq]
    rfl
  · rw [iterTrace_eq]
    simp [loopBody, List.filter, isPrintEv, hline]

/-- Claim C8: the loop guard is the constant `true`, so for every number
of completed iterations `N` the iteration `N + 1` exists and emits its
four events. -/
theorem loop_runs_forever (draws : Nat → ℚ × ℚ) (N : Nat) :
    loopGuard = true ∧ (iterTrace draws (N + 1)).length = 4 :=
  ⟨rfl, rfl⟩

/-- Claim C9: the payload of iteration `n` is a function of the two
draws of iteration `n` only — two runs whose iteration-`n` draws agree
publish equal payloads, byte-identical once rendered. -/
theorem payload_depends_only_on_draws (d1 d2 : Nat → ℚ × ℚ) (n : Nat)
    (h : d1 n = d2 n) :
    payloadAt d1 n = payloadAt d2 n ∧
      renderPayload (mkSample (d1 n).1 (d1 n).2) =
        renderPayload (mkSample (d2 n).1 (d2 n).2) := by
  rw [payloadAt, payloadAt, h]
  exact ⟨rfl, rfl⟩

/-- Concrete instance of `payload_depends_only_on_draws` for two streams
that agree at iteration 0. -/
theorem payload_depends_only_on_draws_witness :
    payloadAt (fun _ => ((1 : ℚ)/2, (1 : ℚ)/3)) 0 =
      payloadAt (fun i => ((1 : ℚ)/2, (1 : ℚ)/3 + 0 * i)) 0 :=
  (payload_depends_only_on_draws _ _ 0 (by norm_num)).1

/-- With explicit counters, the fault-free segments agree with the
per-iteration traces once the counter invariant is plugged in. -/
theorem segTrace_eq_cleanTraceFrom (draws : Nat → ℚ × ℚ) :
    ∀ (k i : Nat), segTrace draws (i + 1) i k = cleanTraceFrom draws i k := by
  intro k
  induction k with
  | zero => intro i; rfl
  | succ m ih =>
    intro i
    rw [segTrace, cleanTraceFrom, iterTrace_eq, ih (i + 1)]

/-- When neither call raises, the fallible body equals the plain body and
hands the incremented counter to the next iteration. -/
theorem loopBodyExc_ok (counter : Nat) (r1 r2 : ℚ) :
    loopBodyExc counter r1 r2 false false =
      ((loopBody counter r1 r2).1, some (counter + 1)) := rfl

/-- When `produce` or `flush` raises, the fallible body yields no
counter for a next iteration. -/
theorem loopBodyExc_snd_none (counter : Nat) (r1 r2 : ℚ) (pb fb : Bool)
    (h : pb = true ∨ fb = true) :
    (loopBodyExc counter r1 r2 pb fb).2 = none := by
  rcases h with h | h <;> subst h
  · rfl
  · cases pb <;> rfl

/-- Unfolding a fault-free step of the fallible run. -/
theorem runExc_step_ok (draws : Nat → ℚ × ℚ)
    (produceFail flushFail : Nat → Bool) (c i f : Nat)
    (hp : produceFail i = false) (hf : flushFail i = false) :
    runExc draws produceFail flushFail c i (f + 1) =
      (loopBody c (draws i).1 (draws i).2).1 ++
        runExc draws produceFail flushFail (c + 1) (i + 1) f := by
  have hstep : loopBodyExc c (draws i).1 (draws i).2
      (produceFail i) (flushFail i) =
      ((loopBody c (draws i).1 (draws i).2).1, some (c + 1)) := by
    rw [hp, hf, loopBodyExc_ok]
  simp [runExc, hstep]

/-- Unfolding a faulting step of the fallible run: the exception escapes
the body and kills the loop. -/
theorem runExc_step_none (draws : Nat → ℚ × ℚ)
    (produceFail flushFail : Nat → Bool) (c i f : Nat)
    (h : (loopBodyExc c (draws i).1 (draws i).2
        (produceFail i) (flushFail i)).2 = none) :
    runExc draws produceFail flushFail c i (f + 1) =
      (loopBodyExc c (draws i).1 (draws i).2
        (produceFail i) (flushFail i)).1 := by
  simp [runExc, h]

/-- A run of the fallible loop whose first escaping exception happens at
iteration `i + k` consists of the `k` clean bodies followed by whatever
the faulting body emitted before raising, and nothing else — no matter
how much fuel remains. -/
theorem runExc_fault (draws : Nat → ℚ × ℚ)
    (produceFail flushFail : Nat → Bool) :
    ∀ (k i c fuel : Nat),
      (∀ j, j < k → produceFail (i + j) = false ∧ flushFail (i + j) = false) →
      (produceFail (i + k) = true ∨ flushFail (i + k) = true) →
      k + 1 ≤ fuel →
      runExc draws produceFail flushFail c i fuel =
        segTrace draws c i k ++
          (loopBodyExc (c + k) (draws (i + k)).1 (draws (i + k)).2
            (produceFail (i + k)) (flushFail (i + k))).1 := by
  intro k
  induction k with
  | zero =>
    intro i c fuel _ hfault hfuel
    obtain ⟨f, rfl⟩ : ∃ f, fuel = f + 1 := ⟨fuel - 1, by omega⟩
    simp only [Nat.add_zero] at hfault ⊢
    rw [runExc_step_none draws produceFail flushFail c i f
      (loopBodyExc_snd_none c (draws i).1 (draws i).2 _ _ hfault)]
    simp [segTrace]
  | succ m ih =>
    intro i c fuel hclean hfault hfuel
    obtain ⟨f, rfl⟩ : ∃ f, fuel = f + 1 := ⟨fuel - 1, by omega⟩
    have h0 := hclean 0 (Nat.succ_pos m)
    rw [Nat.add_zero] at h0
    have hia : i + 1 + m = i + (m + 1) := by omega
    have hrec := ih (i + 1) (c + 1) f
      (fun j hj => by
        have hx : i + 1 + j = i + (j + 1) := by omega
        rw [hx]
        exact hclean (j + 1) (by omega))
      (by rw [hia]; exact hfault)
      (by omega)
    rw [hia] at hrec
    have hca : c + 1 + m = c + (m + 1) := by omega
    rw [hca] at hrec
    rw [runExc_step_ok draws produceFail flushFail c i f h0.1 h0.2, hrec]
    simp [segTrace, List.append_assoc]

/-- Claim C10: the loop body has no error recovery.  If the first raise
from `produce` or `flush` happens at iteration `k`, the whole observable
trace is the `k` clean iterations followed by the events iteration `k`
emitted before the raise — no later iteration runs regardless of the
remaining fuel — and the faulting iteration issues at most one `produce`
call, so its payload is never retried. -/
theorem no_error_recovery (draws : Nat → ℚ × ℚ)
    (produceFail flushFail : Nat → Bool) (k fuel : Nat)
    (hclean : ∀ j, j < k → produceFail j = false ∧ flushFail j = false)
    (hfault : produceFail k = true ∨ flushFail k = true)
    (hfuel : k + 1 ≤ fuel) :
    runExc draws produceFail flushFail 1 0 fuel =
        cleanTraceFrom draws 0 k ++
          (loopBodyExc (k + 1) (draws k).1 (draws k).2
            (produceFail k) (flushFail k)).1 ∧
      (loopBodyExc (k + 1) (draws k).1 (draws k).2
          (produceFail k) (flushFail k)).1.countP isProduceEv ≤ 1 := by
  constructor
  · have hrun := runExc_fault draws produceFail flushFail k 0 1 fuel
      (fun j hj => by simpa using hclean j hj)
      (by simpa using hfault) hfuel
    rw [hrun, segTrace_eq_cleanTraceFrom draws k 0]
    simp [Nat.add_comm 1 k]
  · rcases produceFail k with _ | _ <;>
      rcases flushFail k with _ | _ <;>
        simp [loopBodyExc, loopBody, List.countP, List.countP.go, isProduceEv]

/-- Streams for the concrete instance of `no_error_recovery`: constant
draws, `produce` that never fails, `flush` that raises at iteration 1. -/
def drawsW : Nat → ℚ × ℚ := fun _ => (1/2, 1/3)

/-- In the concrete instance, `produce` never raises. -/
def produceFailW : Nat → Bool := fun _ => false

/-- In the concrete instance, `flush` raises exactly at iteration 1. -/
def flushFailW : Nat → Bool := fun i => i == 1

/-- Concrete instance of `no_error_recovery`: the first flush raise is at
iteration 1 and there is fuel for 5 iterations. -/
theorem no_error_recovery_witness :
    runExc drawsW produceFailW flushFailW 1 0 5 =
        cleanTraceFrom drawsW 0 1 ++
          (loopBodyExc (1 + 1) (drawsW 1).1 (drawsW 1).2
            (produceFailW 1) (flushFailW 1)).1 ∧
      (loopBodyExc (1 + 1) (drawsW 1).1 (drawsW 1).2
          (produceFailW 1) (flushFailW 1)).1.countP isProduceEv ≤ 1 :=
  no_error_recovery drawsW produceFailW flushFailW 1 5
    (fun j hj => by
      have hj0 : j = 0 := by omega
      subst hj0
      exact ⟨rfl, rfl⟩)
    (Or.inr rfl) (by norm_num)
